import Mathlib

/-!
Shallow embedding of `programs/buck_repo.py` (class `BuckRepo`): the
checkout-and-clean state machine, the ant clean/build steps, the
version-control gateway queries, the resource registry, and the buck
version-uid resolver.  Subprocess exit codes, subprocess outputs, file
contents and terminal state are oracle inputs; every observable side
effect (subprocess invocation, file removal, log creation, file read,
interactive prompt) is recorded as an `Event` in the order the python
code performs it.
-/

/-- Observable side effects of the python code, in program order.
`call cmd` is a subprocess invocation with argv `cmd`; `removeFile` is
`os.remove`; `writeLog` is opening a log file for writing (truncating);
`readFile` is reading a file's contents; `externalFn` is a call into the
external `buck_version` module (itself subprocess-backed); `prompt` is
the interactive question read from the terminal. -/
inductive Event where
  | call (cmd : List String)
  | removeFile (path : String)
  | writeLog (name : String)
  | readFile (name : String)
  | externalFn (name : String)
  | prompt
  deriving DecidableEq, Repr

/-- Control-flow outcome of a `BuckRepo` operation: normal return,
the raised `RestartBuck` signal, or a raised `BuckToolException`. -/
inductive Outcome where
  | done
  | restartBuck
  | buckToolException (msg : String)
  deriving DecidableEq, Repr

/-- Python `str.strip()`: remove leading and trailing whitespace.
Implemented structurally on the character list so the kernel can
evaluate it. -/
def pyStrip (s : String) : String :=
  String.mk (((s.data.dropWhile Char.isWhitespace).reverse.dropWhile Char.isWhitespace).reverse)

/-- ASCII lowering of one character, as python `str.lower()` acts on the
ASCII range (the only range the code compares against). -/
def asciiLowerChar (c : Char) : Char :=
  if 'A' ≤ c ∧ c ≤ 'Z' then Char.ofNat (c.toNat + 32) else c

/-- Python `str.lower()` restricted to ASCII, structurally. -/
def pyLower (s : String) : String :=
  String.mk (s.data.map asciiLowerChar)

/-- Python truthiness of an `os.environ.get` result: `None` and the
empty string are falsy, every other string is truthy. -/
def pyTruthy : Option String → Bool
  | none => false
  | some s => s != ""

/-- The fixed `RESOURCES` registry of `buck_repo.py`, verbatim: symbolic
resource names mapped to repository-relative paths. -/
def RESOURCES : List (String × String) := [
  ("abi_processor_classes", "build/abi_processor/classes"),
  ("android_agent_path", "assets/android/agent.apk"),
  ("buck_server", "bin/buck"),
  ("buck_build_type_info", "config/build_type/LOCAL_ANT/type.txt"),
  ("dx", "third-party/java/dx/etc/dx"),
  ("jacoco_agent_jar", "third-party/java/jacoco/jacocoagent.jar"),
  ("libjcocoa.dylib", "third-party/java/ObjCBridge/libjcocoa.dylib"),
  ("logging_config_file", "config/logging.properties.st"),
  ("native_exopackage_fake_path", "assets/android/native-exopackage-fakes.apk"),
  ("path_to_asm_jar", "third-party/java/asm/asm-debug-all-5.0.3.jar"),
  ("path_to_rawmanifest_py", "src/com/facebook/buck/util/versioncontrol/rawmanifest.py"),
  ("path_to_intellij_py", "src/com/facebook/buck/ide/intellij/deprecated/intellij.py"),
  ("path_to_pex", "src/com/facebook/buck/python/make_pex.py"),
  ("path_to_sh_binary_template", "src/com/facebook/buck/shell/sh_binary_template"),
  ("path_to_static_content", "webserver/static"),
  ("report_generator_jar", "build/report-generator.jar"),
  ("testrunner_classes", "build/testrunner/classes"),
  ("path_to_pathlib_py", "third-party/py/pathlib/pathlib.py"),
  ("path_to_pywatchman", "third-party/py/pywatchman"),
  ("path_to_typing", "third-party/py/typing/python2")]

/-- `BuckRepo._join_buck_dir`: `os.path.join(self._buck_dir,
*(relative_path.split(sl)))`.  Splitting a relative path on the
separator and rejoining with the platform separator is, on a
slash-separator platform, concatenation with a separator in between
(every registry value is a nonempty relative path). -/
def join_buck_dir (buck_dir relative_path : String) : String :=
  buck_dir ++ "/" ++ relative_path

/-- `BuckRepo._get_resource`: `RESOURCES[resource.name]` (a `KeyError`
naming the missing key when absent, modelled as `Except.error name`),
joined against the repository root.  The function touches no state:
it performs no existence check. -/
def get_resource (buck_dir name : String) : Except String String :=
  match RESOURCES.lookup name with
  | none => Except.error name
  | some rel => Except.ok (join_buck_dir buck_dir rel)

/-- `BuckRepo._has_local_changes`: `False` without any subprocess when
the repo is not git-controlled; otherwise `bool(output.strip())` of
`git ls-files -m` run via `check_output`. -/
def has_local_changes (is_git : Bool) (ls_files_output : String) : Bool × List Event :=
  if !is_git then (false, [])
  else (pyStrip ls_files_output != "", [Event.call ["git", "ls-files", "-m"]])

/-- `BuckRepo._get_git_revision`: the sentinel `"N/A"` without any
subprocess when not git-controlled; otherwise the revision reported by
`buck_version.get_git_revision` (subprocess-backed, an oracle here). -/
def get_git_revision (is_git : Bool) (git_revision : String) : String × List Event :=
  if !is_git then ("N/A", [])
  else (git_revision, [Event.externalFn "get_git_revision"])

/-- `BuckRepo._get_git_commit_timestamp`: `-1` without any subprocess
when the `BUCK_REPOSITORY_DIRTY` override is truthy or the repo is not
git-controlled; otherwise the timestamp reported by
`buck_version.get_git_revision_timestamp` (an oracle here). -/
def get_git_commit_timestamp (dirty_override : Option String) (is_git : Bool)
    (timestamp : Int) : Int × List Event :=
  if pyTruthy dirty_override || !is_git then (-1, [])
  else (timestamp, [Event.externalFn "get_git_revision_timestamp"])

/-- `BuckRepo._revision_exists`: unconditionally runs
`git cat-file -e revision` and tests the exit code — there is no
version-control guard in this method. -/
def revision_exists (revision : String) (cat_file_exit : Int) : Bool × List Event :=
  (cat_file_exit == 0, [Event.call ["git", "cat-file", "-e", revision]])

/-- `BuckRepo._check_for_ant`: fails with a `BuckToolException` when no
`ant` executable is on the path; `none` means ant was found and
execution continues. -/
def check_for_ant (ant_on_path : Bool) : Option Outcome :=
  if ant_on_path then none
  else some (Outcome.buckToolException "You do not have ant on your PATH. Cannot build Buck.")

/-- `BuckRepo._print_ant_failure_and_exit`: always raises a
`BuckToolException`, with a git-clean remedy hint when git-controlled
and a delete-build-directory hint otherwise. -/
def print_ant_failure_and_exit (is_git : Bool) (buck_dir : String) : Outcome :=
  if is_git then
    Outcome.buckToolException
      ("It is possible that running this command will fix it: git -C " ++ buck_dir ++ " clean -xfd")
  else
    Outcome.buckToolException
      ("It is possible that running this command will fix it: rm -rf " ++ buck_dir ++ "/build")

/-- `BuckRepo._run_ant_clean`: open `ant-clean.log` for writing, run
`[ant, clean]`, and raise the ant failure on a nonzero exit. -/
def run_ant_clean (is_git : Bool) (buck_dir : String) (ant_clean_exit : Int) :
    Outcome × List Event :=
  let ev := [Event.writeLog "ant-clean.log", Event.call ["ant", "clean"]]
  if ant_clean_exit != 0 then (print_ant_failure_and_exit is_git buck_dir, ev)
  else (Outcome.done, ev)

/-- `BuckRepo._run_ant`: open `ant.log` for writing, run `[ant]`, and
raise the ant failure on a nonzero exit. -/
def run_ant (is_git : Bool) (buck_dir : String) (ant_exit : Int) : Outcome × List Event :=
  let ev := [Event.writeLog "ant.log", Event.call ["ant"]]
  if ant_exit != 0 then (print_ant_failure_and_exit is_git buck_dir, ev)
  else (Outcome.done, ev)

/-- Oracle results of the subprocesses and probes a `BuckRepo` run may
perform: exit codes of `git cat-file -e`, `git fetch`, `git checkout`
and the two ant steps, the current revision, whether `ant` is on the
path, and whether the external ant build, when it fully succeeds,
creates the `build/successful-build` marker (the python code itself
never writes that file). -/
structure SubprocEnv where
  cat_file_exit : Int
  fetch_exit : Int
  git_revision : String
  checkout_exit : Int
  ant_on_path : Bool
  ant_clean_exit : Int
  ant_exit : Int
  ant_creates_marker : Bool
  deriving DecidableEq, Repr

/-- Result of a `BuckRepo` state-machine run: the control-flow outcome,
whether the `build/successful-build` marker exists afterwards, and the
ordered side effects. -/
structure CCState where
  outcome : Outcome
  marker_after : Bool
  events : List Event
  deriving DecidableEq, Repr

/-- `BuckRepo._checkout_and_clean(revision, branch)`: probe the revision
with `git cat-file -e`; when absent, `git fetch --all` (or
`git fetch origin branch`), fatal on failure; read the current revision;
when it differs from the required one, `git checkout --quiet revision`
(fatal on failure), remove the `build/successful-build` marker if
present, resolve ant, run the ant clean step, and raise `RestartBuck`.
Oracle subprocess results come from `e`. -/
def checkout_and_clean (revision : String) (branch : Option String) (is_git : Bool)
    (marker : Bool) (buck_dir : String) (e : SubprocEnv) : CCState :=
  let probe := revision_exists revision e.cat_file_exit
  let fetch_events : List Event :=
    if probe.1 then []
    else [Event.call (["git", "fetch"] ++ (match branch with
      | none => ["--all"]
      | some b => ["origin", b]))]
  let ev := probe.2 ++ fetch_events
  if !probe.1 && e.fetch_exit != 0 then
    ⟨Outcome.buckToolException "Failed to fetch Buck updates from git.", marker, ev⟩
  else
    let current := get_git_revision is_git e.git_revision
    let ev := ev ++ current.2
    if current.1 = revision then ⟨Outcome.done, marker, ev⟩
    else
      let ev := ev ++ [Event.call ["git", "checkout", "--quiet", revision]]
      if e.checkout_exit != 0 then
        ⟨Outcome.buckToolException ("Failed to update Buck to revision " ++ revision),
          marker, ev⟩
      else
        let ev := ev ++ (if marker then [Event.removeFile "build/successful-build"] else [])
        match check_for_ant e.ant_on_path with
        | some failure => ⟨failure, false, ev⟩
        | none =>
          let clean := run_ant_clean is_git buck_dir e.ant_clean_exit
          let ev := ev ++ clean.2
          match clean.1 with
          | Outcome.done => ⟨Outcome.restartBuck, false, ev⟩
          | failure => ⟨failure, false, ev⟩

/-- `BuckRepo._build`: when the `build/successful-build` marker exists,
do nothing; otherwise resolve ant, run the ant clean step, then the ant
build step (each fatal on nonzero exit).  The python code never creates
the marker itself: after a fully successful build its existence is
whatever the external ant build left behind (`e.ant_creates_marker`). -/
def build (marker is_git : Bool) (buck_dir : String) (e : SubprocEnv) : CCState :=
  if marker then ⟨Outcome.done, marker, []⟩
  else
    match check_for_ant e.ant_on_path with
    | some failure => ⟨failure, false, []⟩
    | none =>
      let clean := run_ant_clean is_git buck_dir e.ant_clean_exit
      match clean.1 with
      | Outcome.done =>
        let bld := run_ant is_git buck_dir e.ant_exit
        match bld.1 with
        | Outcome.done => ⟨Outcome.done, e.ant_creates_marker, clean.2 ++ bld.2⟩
        | failure => ⟨failure, false, clean.2 ++ bld.2⟩
      | failure => ⟨failure, false, clean.2⟩

/-- Modelled from the spec: `buck_version.get_clean_buck_version` is not
part of this repository slice; per the spec it succeeds only if the
checkout exactly matches a known revision (`revision_match`, an oracle)
and there are no local modifications, unless the dirty-override flag
explicitly permits treating the tree as clean (`allow_dirty`). -/
def get_clean_buck_version (revision_match : Option String) (has_mods allow_dirty : Bool) :
    Option String :=
  if has_mods && !allow_dirty then none else revision_match

/-- Environment, filesystem and oracle state consumed by
`BuckRepo._get_buck_version_uid`: the `BUCK_FAKE_VERSION` variable, the
contents of `.fakebuckversion` when that file exists, the
`BUCK_REPOSITORY_DIRTY` and `BUCK_CLEAN_REPO_IF_DIRTY` variables, the
git state, the clean-match and dirty-version oracles, the
`.nobuckcheck` / `.buckversion` project flags, and the terminal. -/
structure UidEnv where
  fake_version_env : Option String
  fake_version_file : Option String
  dirty_override : Option String
  clean_repo_if_dirty : Option String
  is_git : Bool
  ls_files_output : String
  revision_match : Option String
  dirty_version : String
  has_no_buck_check : Bool
  buck_version_set : Bool
  isatty : Bool
  user_input : String
  deriving DecidableEq, Repr

/-- Result of `BuckRepo._get_buck_version_uid`: a version string, or the
raised `RestartBuck` signal. -/
inductive UidResult where
  | version (v : String)
  | restartBuck
  deriving DecidableEq, Repr

/-- Continuation of `_get_buck_version_uid` after the fake-version
checks fail: try the clean version, then the no-check fallback, then the
local-modification listing, then the interactive cleanup prompt, and
finally the dirty version. -/
def uid_rest (e : UidEnv) (ev : List Event) : UidResult × List Event :=
  let allow_dirty := e.dirty_override == some "1"
  let mods := (has_local_changes e.is_git e.ls_files_output).1
  let clean := get_clean_buck_version e.revision_match mods allow_dirty
  let ev := ev ++ [Event.externalFn "get_clean_buck_version"]
  match clean with
  | some v => (UidResult.version v, ev)
  | none =>
    if e.has_no_buck_check || !e.buck_version_set then
      (UidResult.version e.dirty_version, ev ++ [Event.externalFn "get_dirty_buck_version"])
    else
      let ev := ev ++ (has_local_changes e.is_git e.ls_files_output).2
      if mods then
        let ev := ev ++ [Event.call ["git", "ls-files", "-m"]]
        (UidResult.version e.dirty_version, ev ++ [Event.externalFn "get_dirty_buck_version"])
      else
        if e.clean_repo_if_dirty != some "NO" then
          if e.isatty then
            let ev := ev ++ [Event.prompt]
            if pyLower e.user_input = "y" then
              (UidResult.restartBuck, ev ++ [Event.call ["git", "clean", "-fd"]])
            else
              (UidResult.version e.dirty_version,
                ev ++ [Event.externalFn "get_dirty_buck_version"])
          else
            (UidResult.version e.dirty_version,
              ev ++ [Event.externalFn "get_dirty_buck_version"])
        else
          (UidResult.version e.dirty_version,
            ev ++ [Event.externalFn "get_dirty_buck_version"])

/-- `BuckRepo._get_buck_version_uid`: the `BUCK_FAKE_VERSION`
environment variable wins when truthy; otherwise the `.fakebuckversion`
file contents (stripped) are read when the file exists; a truthy fake
version is returned immediately; otherwise resolution continues in
`uid_rest`. -/
def get_buck_version_uid (e : UidEnv) : UidResult × List Event :=
  let resolved : Option String × List Event :=
    if pyTruthy e.fake_version_env then (e.fake_version_env, [])
    else
      match e.fake_version_file with
      | none => (e.fake_version_env, [])
      | some content => (some (pyStrip content), [Event.readFile ".fakebuckversion"])
  if pyTruthy resolved.1 then
    (UidResult.version (resolved.1.getD ""), resolved.2)
  else
    uid_rest e resolved.2

/-- Helper: a key absent from the key column is not found by `List.lookup`. -/
theorem lookup_eq_none_of_not_mem_keys (l : List (String × String)) (name : String)
    (h : name ∉ l.map Prod.fst) : l.lookup name = none := by
  induction l with
  | nil => rfl
  | cons p t ih =>
    obtain ⟨k, v⟩ := p
    simp only [List.map_cons, List.mem_cons, not_or] at h
    have hk : (name == k) = false := by simp [h.1]
    simp [List.lookup, hk, ih h.2]

/-- Helper: with pairwise-distinct keys, `List.lookup` finds the value of
any pair present in the list. -/
theorem lookup_eq_some_of_mem_nodup (l : List (String × String)) (name rel : String)
    (hnd : (l.map Prod.fst).Nodup) (hmem : (name, rel) ∈ l) : l.lookup name = some rel := by
  induction l with
  | nil => cases hmem
  | cons p t ih =>
    obtain ⟨k, v⟩ := p
    simp only [List.map_cons, List.nodup_cons] at hnd
    rcases List.mem_cons.mp hmem with heq | hmem2
    · cases heq
      simp [List.lookup]
    · have hne : name ≠ k := by
        intro hnk
        apply hnd.1
        have hmap := List.mem_map_of_mem Prod.fst hmem2
        rwa [hnk] at hmap
      have hk : (name == k) = false := by simp [hne]
      simpa [List.lookup, hk] using ih hnd.2 hmem2

/-- Helper: the key column of the `RESOURCES` registry has no duplicates. -/
theorem resources_keys_nodup : (RESOURCES.map Prod.fst).Nodup := by decide

/-- Claim C9: for every resource name not in the fixed registry, the
locator fails with an error naming that resource; for every name in the
registry, it returns the repository root joined with the mapped relative
path.  `get_resource` is a pure function of the registry alone — it
takes no filesystem state and performs no existence check. -/
theorem resource_locate_c9 (buck_dir name : String) :
    (name ∉ RESOURCES.map Prod.fst → get_resource buck_dir name = Except.error name) ∧
    (∀ rel, (name, rel) ∈ RESOURCES →
      get_resource buck_dir name = Except.ok (join_buck_dir buck_dir rel)) := by
  constructor
  · intro h
    unfold get_resource
    rw [lookup_eq_none_of_not_mem_keys RESOURCES name h]
  · intro rel h
    unfold get_resource
    rw [lookup_eq_some_of_mem_nodup RESOURCES name rel resources_keys_nodup h]

/-- Claim C9 witness: the locator evaluated at an unknown and at a
registered resource name. -/
theorem resource_locate_c9_witness :
    get_resource "/repo" "unknown-name" = Except.error "unknown-name" ∧
    get_resource "/repo" "buck_server" = Except.ok "/repo/bin/buck" :=
  ⟨(resource_locate_c9 "/repo" "unknown-name").1 (by decide),
   ((resource_locate_c9 "/repo" "buck_server").2 "bin/buck" (by decide)).trans
     (congrArg Except.ok (by decide))⟩

/-- Claim C4 counterexample: `_revision_exists` has no version-control
guard — its behavior does not depend on `is_git` at all — and it always
invokes the `git cat-file -e` subprocess, so on a repository that is not
version-controlled this gateway query still invokes a subprocess,
refuting the claim that no subprocess is ever invoked by any of the
queries. -/
theorem gateway_sentinel_c4_counterexample :
    (revision_exists "feedface" 0).2 = [Event.call ["git", "cat-file", "-e", "feedface"]] ∧
    (revision_exists "feedface" 0).2 ≠ [] := by
  decide

/-- Claim C4 (amended): on a repository that is not version-controlled,
`currentRevision` returns the sentinel `"N/A"`, `hasLocalModifications`
returns `false` and `commitTimestamp` returns `-1`, each without
invoking any subprocess or external call; `revisionExists`, however, has
no version-control guard and always invokes the `git cat-file -e`
object-store probe (in `BuckRepo` it is reached only from the checkout
path, which construction guards with `is_git`). -/
theorem gateway_sentinel_c4 (ls_out git_rev : String) (d : Option String) (ts : Int)
    (rev : String) (ex : Int) :
    has_local_changes false ls_out = (false, []) ∧
    get_git_revision false git_rev = ("N/A", []) ∧
    get_git_commit_timestamp d false ts = (-1, []) ∧
    (revision_exists rev ex).2 = [Event.call ["git", "cat-file", "-e", rev]] := by
  refine ⟨rfl, rfl, ?_, rfl⟩
  simp [get_git_commit_timestamp]

/-- Claim C5 counterexample: with the dirty-override environment
variable set to `"0"` — a value that is neither unset nor the force-dirty
value `"1"` — and a version-controlled repository, the code still returns
`-1` instead of the commit timestamp, because it tests python truthiness
of the variable, not equality with `"1"`. -/
theorem timestamp_c5_counterexample :
    get_git_commit_timestamp (some "0") true 1500000000 = (-1, []) ∧
    (some "0" : Option String) ≠ some "1" ∧ ((-1 : Int) ≠ 1500000000) := by
  decide

/-- Claim C5 (amended): `commitTimestamp` returns `-1` exactly when the
dirty-override environment variable is set to any non-empty string
(python truthiness, not equality with `"1"`) or the repository is not
version-controlled; in every other state it returns the epoch timestamp
reported for the current revision. -/
theorem timestamp_c5 (d : Option String) (is_git : Bool) (ts : Int) :
    (pyTruthy d = true ∨ is_git = false → get_git_commit_timestamp d is_git ts = (-1, [])) ∧
    (pyTruthy d = false → is_git = true →
      get_git_commit_timestamp d is_git ts =
        (ts, [Event.externalFn "get_git_revision_timestamp"])) := by
  constructor
  · intro h
    rcases h with h | h <;> simp [get_git_commit_timestamp, h]
  · intro h1 h2
    simp [get_git_commit_timestamp, h1, h2]

/-- Claim C5 witness: the amended claim evaluated with the override set
to the force-dirty value and with it unset. -/
theorem timestamp_c5_witness :
    get_git_commit_timestamp (some "1") true 7 = (-1, []) ∧
    get_git_commit_timestamp none true 7 =
      (7, [Event.externalFn "get_git_revision_timestamp"]) :=
  ⟨(timestamp_c5 (some "1") true 7).1 (Or.inl (by decide)),
   (timestamp_c5 none true 7).2 rfl rfl⟩

/-- Claim C3 counterexample: the marker is absent, ant is found, and
both the clean and the build step exit 0, yet the coordinator leaves the
marker absent when the external ant build did not create it — the python
code itself never writes `build/successful-build`, refuting the claim
that the marker is created by this subsystem on success. -/
theorem build_marker_c3_counterexample :
    (build false true "/buck" ⟨0, 0, "", 0, true, 0, 0, false⟩).outcome = Outcome.done ∧
    (build false true "/buck" ⟨0, 0, "", 0, true, 0, 0, false⟩).marker_after = false := by
  decide

/-- Claim C3 (amended): `_build` itself never creates the marker.  When
the marker is absent, after `_build` the marker exists iff ant was
found, both the clean and the build step exited 0, and the external ant
build created the marker; when the marker already exists, `_build`
performs no side effects and the marker persists, so a re-invocation
skips the rebuild. -/
theorem build_marker_c3 (is_git : Bool) (buck_dir : String) (e : SubprocEnv) :
    ((build false is_git buck_dir e).marker_after = true ↔
      (e.ant_on_path = true ∧ e.ant_clean_exit = 0 ∧ e.ant_exit = 0 ∧
        e.ant_creates_marker = true)) ∧
    (build true is_git buck_dir e).events = [] ∧
    (build true is_git buck_dir e).marker_after = true := by
  obtain ⟨cf, fe, gr, co, ap, ac, ab, cm⟩ := e
  refine ⟨?_, rfl, rfl⟩
  cases is_git <;> cases ap <;> rcases eq_or_ne ac 0 with hac | hac <;>
    rcases eq_or_ne ab 0 with hab | hab <;> cases cm <;>
    simp [build, check_for_ant, run_ant_clean, run_ant, print_ant_failure_and_exit, hac, hab]

/-- Claim C1 counterexample: a run in which the checkout subprocess is
invoked and succeeds but the subsequent ant clean step exits 1: the
marker has been removed, yet the outcome is a `BuckToolException`, not
`RestartBuck` — refuting the claim that `RestartBuck` is raised
regardless of whether the rebuild step inside that path succeeds or
fails. -/
theorem checkout_restart_c1_counterexample :
    (checkout_and_clean "feedface" none true true "/buck"
        ⟨0, 0, "aaa", 0, true, 1, 0, false⟩).outcome ≠ Outcome.restartBuck ∧
    Event.call ["git", "checkout", "--quiet", "feedface"] ∈
      (checkout_and_clean "feedface" none true true "/buck"
        ⟨0, 0, "aaa", 0, true, 1, 0, false⟩).events ∧
    (checkout_and_clean "feedface" none true true "/buck"
        ⟨0, 0, "aaa", 0, true, 1, 0, false⟩).marker_after = false := by
  decide

/-- Claim C1 (amended): whenever the checkout path is reached (the
revision is locally present or the fetch succeeds, and the current
revision differs) and the checkout subprocess succeeds, the
build-artifact marker is absent immediately afterwards regardless of
the rebuild outcome; `RestartBuck` is raised (once, as the final action)
if and only if ant is found on the path and the ant clean step succeeds
— when the clean step fails or ant is missing, a `BuckToolException`
propagates instead. -/
theorem checkout_restart_c1 (revision : String) (branch : Option String) (marker : Bool)
    (buck_dir : String) (e : SubprocEnv)
    (hfetch : e.cat_file_exit = 0 ∨ e.fetch_exit = 0)
    (hdiff : e.git_revision ≠ revision)
    (hco : e.checkout_exit = 0) :
    (checkout_and_clean revision branch true marker buck_dir e).marker_after = false ∧
    ((checkout_and_clean revision branch true marker buck_dir e).outcome = Outcome.restartBuck
      ↔ (e.ant_on_path = true ∧ e.ant_clean_exit = 0)) := by
  rcases Bool.eq_false_or_eq_true e.ant_on_path with hap | hap <;>
    rcases eq_or_ne e.ant_clean_exit 0 with hac | hac <;>
    rcases hfetch with hf | hf <;>
    simp [checkout_and_clean, revision_exists, get_git_revision, check_for_ant,
      run_ant_clean, print_ant_failure_and_exit, hf, hdiff, hco, hap, hac]

/-- Claim C1 witness: the amended claim at a concrete successful
checkout followed by a successful ant clean. -/
theorem checkout_restart_c1_witness :
    (checkout_and_clean "feedface" none true true "/buck"
        ⟨0, 0, "aaa", 0, true, 0, 0, false⟩).marker_after = false ∧
    ((checkout_and_clean "feedface" none true true "/buck"
        ⟨0, 0, "aaa", 0, true, 0, 0, false⟩).outcome = Outcome.restartBuck
      ↔ (true = true ∧ (0 : Int) = 0)) :=
  checkout_restart_c1 "feedface" none true "/buck" ⟨0, 0, "aaa", 0, true, 0, 0, false⟩
    (Or.inl rfl) (by decide) rfl

/-- Claim C2 counterexample: a fully successful checkout-and-clean run
raises `RestartBuck` after running only the ant clean step — the build
step (the bare `ant` invocation writing `ant.log`) is never run in that
path, refuting the claim that both the clean step and the build step run
before the restart is signaled. -/
theorem checkout_build_c2_counterexample :
    (checkout_and_clean "feedface" none true true "/buck"
        ⟨0, 0, "aaa", 0, true, 0, 0, false⟩).outcome = Outcome.restartBuck ∧
    Event.call ["ant", "clean"] ∈
      (checkout_and_clean "feedface" none true true "/buck"
        ⟨0, 0, "aaa", 0, true, 0, 0, false⟩).events ∧
    Event.call ["ant"] ∉
      (checkout_and_clean "feedface" none true true "/buck"
        ⟨0, 0, "aaa", 0, true, 0, 0, false⟩).events ∧
    Event.writeLog "ant.log" ∉
      (checkout_and_clean "feedface" none true true "/buck"
        ⟨0, 0, "aaa", 0, true, 0, 0, false⟩).events := by
  decide

/-- Claim C2 (amended): after a successful checkout the version
controller resolves ant and runs only the clean step (writing
`ant-clean.log`) before raising `RestartBuck`; the build step (writing
`ant.log`) does not run in that path — it is deferred to the restarted
process, whose `_build` sees the deleted marker and then runs both the
clean and the build step. -/
theorem checkout_build_c2 (revision : String) (branch : Option String) (marker : Bool)
    (buck_dir : String) (e : SubprocEnv)
    (hfetch : e.cat_file_exit = 0 ∨ e.fetch_exit = 0)
    (hdiff : e.git_revision ≠ revision)
    (hco : e.checkout_exit = 0)
    (hant : e.ant_on_path = true)
    (hclean : e.ant_clean_exit = 0) :
    (checkout_and_clean revision branch true marker buck_dir e).outcome =
      Outcome.restartBuck ∧
    Event.call ["ant", "clean"] ∈
      (checkout_and_clean revision branch true marker buck_dir e).events ∧
    Event.writeLog "ant-clean.log" ∈
      (checkout_and_clean revision branch true marker buck_dir e).events ∧
    Event.call ["ant"] ∉
      (checkout_and_clean revision branch true marker buck_dir e).events ∧
    Event.writeLog "ant.log" ∉
      (checkout_and_clean revision branch true marker buck_dir e).events ∧
    (checkout_and_clean revision branch true marker buck_dir e).marker_after = false ∧
    Event.call ["ant"] ∈ (build false true buck_dir e).events ∧
    Event.writeLog "ant.log" ∈ (build false true buck_dir e).events := by
  have hlog : ("ant.log" : String) ≠ "ant-clean.log" := by decide
  rcases hfetch with hf | hf <;>
    cases marker <;>
    rcases eq_or_ne e.ant_exit 0 with hab | hab <;>
    simp [checkout_and_clean, build, revision_exists, get_git_revision, check_for_ant,
      run_ant_clean, run_ant, print_ant_failure_and_exit, hf, hdiff, hco, hant, hclean, hab,
      hlog]

/-- Claim C2 witness: the amended claim at a concrete successful
checkout followed by a successful ant clean. -/
theorem checkout_build_c2_witness :
    (checkout_and_clean "feedface" none true true "/buck"
        ⟨0, 0, "aaa", 0, true, 0, 0, false⟩).outcome = Outcome.restartBuck ∧
    Event.call ["ant", "clean"] ∈
      (checkout_and_clean "feedface" none true true "/buck"
        ⟨0, 0, "aaa", 0, true, 0, 0, false⟩).events ∧
    Event.writeLog "ant-clean.log" ∈
      (checkout_and_clean "feedface" none true true "/buck"
        ⟨0, 0, "aaa", 0, true, 0, 0, false⟩).events ∧
    Event.call ["ant"] ∉
      (checkout_and_clean "feedface" none true true "/buck"
        ⟨0, 0, "aaa", 0, true, 0, 0, false⟩).events ∧
    Event.writeLog "ant.log" ∉
      (checkout_and_clean "feedface" none true true "/buck"
        ⟨0, 0, "aaa", 0, true, 0, 0, false⟩).events ∧
    (checkout_and_clean "feedface" none true true "/buck"
        ⟨0, 0, "aaa", 0, true, 0, 0, false⟩).marker_after = false ∧
    Event.call ["ant"] ∈
      (build false true "/buck" ⟨0, 0, "aaa", 0, true, 0, 0, false⟩).events ∧
    Event.writeLog "ant.log" ∈
      (build false true "/buck" ⟨0, 0, "aaa", 0, true, 0, 0, false⟩).events :=
  checkout_build_c2 "feedface" none true "/buck" ⟨0, 0, "aaa", 0, true, 0, 0, false⟩
    (Or.inl rfl) (by decide) rfl rfl rfl

/-- Claim C7: when the current revision already equals the required one,
`_checkout_and_clean` performs no checkout, removes no marker, runs no
ant step, leaves the marker state unchanged, and does not raise
`RestartBuck` (the only subprocesses possibly run are the existence
probe and a fetch). -/
theorem ensure_revision_c7 (revision : String) (branch : Option String)
    (is_git marker : Bool) (buck_dir : String) (e : SubprocEnv)
    (hcur : (get_git_revision is_git e.git_revision).1 = revision) :
    (checkout_and_clean revision branch is_git marker buck_dir e).outcome ≠
      Outcome.restartBuck ∧
    Event.call ["git", "checkout", "--quiet", revision] ∉
      (checkout_and_clean revision branch is_git marker buck_dir e).events ∧
    Event.removeFile "build/successful-build" ∉
      (checkout_and_clean revision branch is_git marker buck_dir e).events ∧
    Event.call ["ant", "clean"] ∉
      (checkout_and_clean revision branch is_git marker buck_dir e).events ∧
    Event.writeLog "ant-clean.log" ∉
      (checkout_and_clean revision branch is_git marker buck_dir e).events ∧
    (checkout_and_clean revision branch is_git marker buck_dir e).marker_after = marker := by
  have hne1 : ("checkout" : String) ≠ "cat-file" := by decide
  have hne2 : ("checkout" : String) ≠ "fetch" := by decide
  have hne3 : ("ant" : String) ≠ "git" := by decide
  cases is_git <;> simp only [get_git_revision] at hcur <;>
    cases hcf : (e.cat_file_exit == 0) <;>
    rcases eq_or_ne e.fetch_exit 0 with hfe | hfe <;>
    cases branch <;>
    simp_all [checkout_and_clean, revision_exists, get_git_revision, hne1, hne2, hne3]

/-- Claim C7 witness: the concrete no-mutation run where the repo is
already at the required revision. -/
theorem ensure_revision_c7_witness :
    (checkout_and_clean "aaa" none true true "/buck"
        ⟨0, 0, "aaa", 0, true, 0, 0, false⟩).outcome ≠ Outcome.restartBuck ∧
    Event.call ["git", "checkout", "--quiet", "aaa"] ∉
      (checkout_and_clean "aaa" none true true "/buck"
        ⟨0, 0, "aaa", 0, true, 0, 0, false⟩).events ∧
    Event.removeFile "build/successful-build" ∉
      (checkout_and_clean "aaa" none true true "/buck"
        ⟨0, 0, "aaa", 0, true, 0, 0, false⟩).events ∧
    Event.call ["ant", "clean"] ∉
      (checkout_and_clean "aaa" none true true "/buck"
        ⟨0, 0, "aaa", 0, true, 0, 0, false⟩).events ∧
    Event.writeLog "ant-clean.log" ∉
      (checkout_and_clean "aaa" none true true "/buck"
        ⟨0, 0, "aaa", 0, true, 0, 0, false⟩).events ∧
    (checkout_and_clean "aaa" none true true "/buck"
        ⟨0, 0, "aaa", 0, true, 0, 0, false⟩).marker_after = true :=
  ensure_revision_c7 "aaa" none true true "/buck" ⟨0, 0, "aaa", 0, true, 0, 0, false⟩ rfl

/-- Claim C6: when the `BUCK_FAKE_VERSION` environment variable holds a
non-empty string, `_get_buck_version_uid` returns exactly that string
and performs no side effects at all — in particular the
`.fakebuckversion` file is never read and neither the clean-version nor
the dirty-version computation is consulted, whatever the rest of the
repository state (including a checkout matching a different known-clean
revision). -/
theorem fake_version_c6 (e : UidEnv) (v : String)
    (henv : e.fake_version_env = some v) (hv : v ≠ "") :
    get_buck_version_uid e = (UidResult.version v, []) := by
  have ht : pyTruthy (some v) = true := by simp [pyTruthy, hv]
  simp [get_buck_version_uid, henv, ht]

/-- Claim C6 witness: the override `"v123"` wins even though the
checkout matches the known-clean revision `"cleanrev"`. -/
theorem fake_version_c6_witness :
    get_buck_version_uid
      ⟨some "v123", none, none, none, true, "", some "cleanrev", "dirty-abc", false, true,
        true, "y"⟩ = (UidResult.version "v123", []) :=
  fake_version_c6
    ⟨some "v123", none, none, none, true, "", some "cleanrev", "dirty-abc", false, true,
      true, "y"⟩ "v123" rfl (by decide)

/-- Claim C8: with no environment or file override, a version
requirement present and no opt-out, local modifications present, and a
non-interactive terminal, `_get_buck_version_uid` returns the dirty
version, never raises `RestartBuck`, never offers the cleanup prompt,
and never runs `git clean`. -/
theorem dirty_noninteractive_c8 (e : UidEnv)
    (h1 : e.fake_version_env = none) (h2 : e.fake_version_file = none)
    (h3 : e.dirty_override = none)
    (h4 : e.has_no_buck_check = false) (h5 : e.buck_version_set = true)
    (h6 : e.is_git = true) (h7 : (pyStrip e.ls_files_output != "") = true)
    (h8 : e.isatty = false) :
    (get_buck_version_uid e).1 = UidResult.version e.dirty_version ∧
    (get_buck_version_uid e).1 ≠ UidResult.restartBuck ∧
    Event.prompt ∉ (get_buck_version_uid e).2 ∧
    Event.call ["git", "clean", "-fd"] ∉ (get_buck_version_uid e).2 ∧
    Event.externalFn "get_dirty_buck_version" ∈ (get_buck_version_uid e).2 := by
  have hcl : ("clean" : String) ≠ "ls-files" := by decide
  simp [get_buck_version_uid, uid_rest, has_local_changes, get_clean_buck_version,
    pyTruthy, h1, h2, h3, h4, h5, h6, h7, h8, hcl]

/-- Claim C8 witness: a concrete dirty, non-interactive resolution. -/
theorem dirty_noninteractive_c8_witness :
    (get_buck_version_uid
      ⟨none, none, none, none, true, "M file.py", some "cleanrev", "dirty-abc", false, true,
        false, "y"⟩).1 = UidResult.version "dirty-abc" ∧
    (get_buck_version_uid
      ⟨none, none, none, none, true, "M file.py", some "cleanrev", "dirty-abc", false, true,
        false, "y"⟩).1 ≠ UidResult.restartBuck ∧
    Event.prompt ∉ (get_buck_version_uid
      ⟨none, none, none, none, true, "M file.py", some "cleanrev", "dirty-abc", false, true,
        false, "y"⟩).2 ∧
    Event.call ["git", "clean", "-fd"] ∉ (get_buck_version_uid
      ⟨none, none, none, none, true, "M file.py", some "cleanrev", "dirty-abc", false, true,
        false, "y"⟩).2 ∧
    Event.externalFn "get_dirty_buck_version" ∈ (get_buck_version_uid
      ⟨none, none, none, none, true, "M file.py", some "cleanrev", "dirty-abc", false, true,
        false, "y"⟩).2 :=
  dirty_noninteractive_c8
    ⟨none, none, none, none, true, "M file.py", some "cleanrev", "dirty-abc", false, true,
      false, "y"⟩ rfl rfl rfl rfl rfl rfl (by decide) rfl

/-- Claim C10: in the interactive dirty-repository cleanup prompt (no
overrides, required version present, no local tracked modifications, the
clean match failed, cleanup not auto-declined, interactive terminal),
`git clean -fd` runs and `RestartBuck` is raised exactly when the
lowercased response is exactly `"y"`; any other response (including
`"yes"`) falls through to the dirty version with no `git clean` and no
restart. -/
theorem prompt_c10 (e : UidEnv)
    (h1 : e.fake_version_env = none) (h2 : e.fake_version_file = none)
    (h3 : e.dirty_override = none) (h4 : e.revision_match = none)
    (h5 : e.has_no_buck_check = false) (h6 : e.buck_version_set = true)
    (h7 : e.is_git = true) (h8 : (pyStrip e.ls_files_output != "") = false)
    (h9 : e.clean_repo_if_dirty ≠ some "NO") (h10 : e.isatty = true) :
    ((get_buck_version_uid e).1 = UidResult.restartBuck ↔ pyLower e.user_input = "y") ∧
    (Event.call ["git", "clean", "-fd"] ∈ (get_buck_version_uid e).2 ↔
      pyLower e.user_input = "y") ∧
    Event.prompt ∈ (get_buck_version_uid e).2 ∧
    (pyLower e.user_input ≠ "y" →
      (get_buck_version_uid e).1 = UidResult.version e.dirty_version ∧
      Event.call ["git", "clean", "-fd"] ∉ (get_buck_version_uid e).2) := by
  have hcl : ("clean" : String) ≠ "ls-files" := by decide
  have h9b : (e.clean_repo_if_dirty != some "NO") = true := by simp [h9]
  rcases eq_or_ne (pyLower e.user_input) "y" with hy | hy <;>
    simp [get_buck_version_uid, uid_rest, has_local_changes, get_clean_buck_version,
      pyTruthy, h1, h2, h3, h4, h5, h6, h7, h8, h9b, h10, hy, hcl]

/-- Claim C10 witness: the response `"yes"` does not trigger the clean:
resolution falls through to the dirty version with no mutation. -/
theorem prompt_c10_witness :
    ((get_buck_version_uid
      ⟨none, none, none, none, true, "", none, "dirty-abc", false, true, true,
        "yes"⟩).1 = UidResult.restartBuck ↔ pyLower "yes" = "y") ∧
    (Event.call ["git", "clean", "-fd"] ∈ (get_buck_version_uid
      ⟨none, none, none, none, true, "", none, "dirty-abc", false, true, true,
        "yes"⟩).2 ↔ pyLower "yes" = "y") ∧
    Event.prompt ∈ (get_buck_version_uid
      ⟨none, none, none, none, true, "", none, "dirty-abc", false, true, true,
        "yes"⟩).2 ∧
    (pyLower "yes" ≠ "y" →
      (get_buck_version_uid
        ⟨none, none, none, none, true, "", none, "dirty-abc", false, true, true,
          "yes"⟩).1 = UidResult.version "dirty-abc" ∧
      Event.call ["git", "clean", "-fd"] ∉ (get_buck_version_uid
        ⟨none, none, none, none, true, "", none, "dirty-abc", false, true, true,
          "yes"⟩).2) :=
  prompt_c10
    ⟨none, none, none, none, true, "", none, "dirty-abc", false, true, true, "yes"⟩
    rfl rfl rfl rfl rfl rfl rfl (by decide) (by decide) rfl
